import Mathlib

/-!
Verification of the session & reliability layer of the workout_bot
repository: encrypted token persistence (bot/utils/encryption.py,
bot/utils/db_utils.py), expiry-aware refresh (bot/utils/api_session.py),
the provider gateway retry loop (bot/ai_assistant/ai_api.py), the
conversation session handlers (bot/ai_assistant/ai_handler.py) and the
inline message chunker of handle_ai_message.

Modelling conventions:
- Python `None` becomes `Option.none`; Python truthiness of strings is
  `pyTruthy` (`None` and `""` are falsy).
- Machine time (`datetime.utcnow()`) is an `Int` parameter `now`; the
  ISO-8601 serialisation of timestamps is elided, `token_expires_at`
  holds the timestamp directly.  The two `utcnow()` calls inside one
  refresh (expiry check and `save_api_tokens`) are modelled as the same
  instant.
- The sqlite row of the user is modelled as a `TokenRow` value; each
  db_utils helper is a pure function on it.
- The Fernet cipher of the `cryptography` library is external code; it is
  modelled as an abstract `FernetModel` carrying exactly its documented
  contract (decryption inverts encryption, ciphertexts are non-empty).
- An `await`ed network call is a parameter returning the scripted
  response; an uncaught Python exception is the `PyResult.raised` value.
-/

namespace WorkoutBot

/-- Python truthiness of an optional string: `None` and `""` are falsy. -/
def pyTruthy : Option String → Bool
  | none => false
  | some s => s != ""

/-- Abstract model of `cryptography.fernet.Fernet`: symmetric encryption
whose decryption inverts encryption and whose ciphertexts are non-empty
(the library contract used by bot/utils/encryption.py). -/
structure FernetModel where
  encrypt : String → String
  decrypt : String → Option String
  decrypt_encrypt : ∀ s : String, decrypt (encrypt s) = some s
  encrypt_ne_empty : ∀ s : String, encrypt s ≠ ""

/-- bot/utils/encryption.py `encrypt_token`: empty or absent input gives
`None`, otherwise the Fernet ciphertext. -/
def encrypt_token (F : FernetModel) : Option String → Option String
  | none => none
  | some s => if s = "" then none else some (F.encrypt s)

/-- bot/utils/encryption.py `decrypt_token`: empty or absent input gives
`None`; an `InvalidToken` failure inside `Fernet.decrypt` (modelled by
`F.decrypt` returning `none`) also gives `None`. -/
def decrypt_token (F : FernetModel) : Option String → Option String
  | none => none
  | some s => if s = "" then none else F.decrypt s

/-- A concrete `FernetModel` instance used to evaluate the theorems on
closed inputs: encryption prepends the marker character `E`. -/
def demoFernet : FernetModel where
  encrypt s := String.mk ('E' :: s.toList)
  decrypt s :=
    match s.toList with
    | 'E' :: rest => some (String.mk rest)
    | _ => none
  decrypt_encrypt s := rfl
  encrypt_ne_empty s := by
    intro h
    simpa using congrArg String.data h

/-! ### Token store (bot/utils/db_utils.py)

The three columns of the `users` table that hold the Gym-Stat tokens. -/

structure TokenRow where
  api_token_encrypted : Option String
  refresh_token_encrypted : Option String
  token_expires_at : Option Int
deriving DecidableEq, Repr

/-- `clear_api_tokens`: all three columns set to NULL. -/
def clearedRow : TokenRow := ⟨none, none, none⟩

/-- `get_api_tokens`: returns the triple only when both the access
ciphertext and the expiry column are truthy (`row and row[0] and row[2]`),
otherwise `None`. -/
def get_api_tokens (row : TokenRow) : Option (Option String × Option String × Int) :=
  match row.token_expires_at with
  | some e =>
      if pyTruthy row.api_token_encrypted then
        some (row.api_token_encrypted, row.refresh_token_encrypted, e)
      else none
  | none => none

/-- `save_api_tokens`: stores the given ciphertexts and
`expires_at = utcnow() + expires_in`. -/
def save_api_tokens (now : Int) (access : Option String) (refresh : Option String)
    (expires_in : Int) : TokenRow :=
  ⟨access, refresh, some (now + expires_in)⟩

/-! ### Token lifecycle (bot/utils/api_session.py)

`get_valid_access_token` has exactly one `await` (the call to
`gym_stat_client.refresh_token`).  It is split at that suspension point:
`tokenPhase1` is the synchronous prefix (read, expiry check, decryption of
the refresh token), `tokenPhase2` the synchronous continuation applied to
the network response.  The full function is their composition; the split
is also what a cooperative scheduler interleaves. -/

/-- Parsed JSON body of a refresh response: `access_token`,
`refresh_token?`, `expires_in?`. -/
structure RefreshBody where
  access_token : Option String
  refresh_token : Option String
  expires_in : Option Int
deriving DecidableEq, Repr

/-- Outcome of `await api_refresh(refresh)`: an HTTP response with a
status and parsed body, or a transport exception raised by httpx. -/
inductive RefreshResult where
  | response (status : Nat) (body : RefreshBody)
  | exn
deriving DecidableEq, Repr

/-- Result of a Python call: a returned value, or an exception that
propagates to the caller. -/
inductive PyResult (α : Type) where
  | ok (val : α)
  | raised
deriving DecidableEq, Repr

/-- State of one `get_valid_access_token` call at its only suspension
point: finished before any network call (`done`, with the possibly
updated row), or suspended awaiting the refresh response (`refreshing`,
carrying the decrypted refresh token being sent and the stored ciphertext
that the later `save_api_tokens` call reuses; the row is untouched so
far). -/
inductive TokenPhase1 where
  | done (res : PyResult (Option String)) (row : TokenRow)
  | refreshing (refreshPlain : String) (refresh_enc : Option String)
deriving DecidableEq, Repr

/-- Synchronous prefix of `get_valid_access_token` up to
`resp = await api_refresh(refresh)`.  The `if not access_enc or not
expires_at_str` re-check of the source is unreachable (already enforced
by `get_api_tokens`) and folds away. -/
def tokenPhase1 (F : FernetModel) (now : Int) (row : TokenRow) : TokenPhase1 :=
  match get_api_tokens row with
  | none => .done (.ok none) row
  | some (access_enc, refresh_enc, expires_at) =>
      if now > expires_at - 300 then
        if ¬ pyTruthy refresh_enc then .done (.ok none) clearedRow
        else
          match decrypt_token F refresh_enc with
          | none => .done (.ok none) clearedRow
          | some r =>
              if r = "" then .done (.ok none) clearedRow
              else .refreshing r refresh_enc
      else
        match decrypt_token F access_enc with
        | none => .done (.ok none) clearedRow
        | some a =>
            if a = "" then .done (.ok none) clearedRow
            else .done (.ok (some a)) row

/-- Synchronous continuation of `get_valid_access_token` after the
refresh response arrives.  A transport exception propagates uncaught (the
source has no try/except around the await) and leaves the row unchanged.
On a 200 with a truthy `access_token`, the new ciphertext is stored next
to the OLD refresh ciphertext `refresh_enc` (the response's
`refresh_token` field is never read) with the default lifetime 3600 when
`expires_in` is missing. -/
def tokenPhase2 (F : FernetModel) (now : Int) (refresh_enc : Option String)
    (row : TokenRow) (resp : RefreshResult) : PyResult (Option String) × TokenRow :=
  match resp with
  | .exn => (.raised, row)
  | .response status body =>
      if status ≠ 200 then (.ok none, clearedRow)
      else
        match body.access_token with
        | none => (.ok none, clearedRow)
        | some a =>
            if a = "" then (.ok none, clearedRow)
            else
              (.ok (some a),
               save_api_tokens now (encrypt_token F (some a)) refresh_enc
                 (body.expires_in.getD 3600))

/-- bot/utils/api_session.py `get_valid_access_token`, as the composition
of the two phases; `api_refresh` scripts the remote refresh endpoint. -/
def get_valid_access_token (F : FernetModel) (now : Int)
    (api_refresh : String → RefreshResult) (row : TokenRow) :
    PyResult (Option String) × TokenRow :=
  match tokenPhase1 F now row with
  | .done res row1 => (res, row1)
  | .refreshing r refresh_enc => tokenPhase2 F now refresh_enc row (api_refresh r)

/-- Whether a call is suspended awaiting the refresh endpoint. -/
def isRefreshing : TokenPhase1 → Bool
  | .refreshing _ _ => true
  | .done _ _ => false

/-- Number of outbound refresh calls issued by two concurrent
`get_valid_access_token` calls for the same user under the cooperative
schedule: caller A runs its synchronous prefix; if A suspends at the
await, caller B runs its prefix against the still-unmodified row (A has
written nothing yet); if A finished, B runs against A's resulting row. -/
def twoCallRefreshCount (F : FernetModel) (now : Int) (row : TokenRow) : Nat :=
  match tokenPhase1 F now row with
  | .refreshing _ _ =>
      1 + (match tokenPhase1 F now row with
           | .refreshing _ _ => 1
           | .done _ _ => 0)
  | .done _ row1 =>
      match tokenPhase1 F now row1 with
      | .refreshing _ _ => 1
      | .done _ _ => 0

/-! ### Provider gateway (bot/ai_assistant/ai_api.py)

`generate_gigachat_response(messages, retries=3, delay=2.0)` loops
`for attempt in range(retries)`, sending one POST per iteration.  The
remote chat endpoint is scripted by `script : Nat → GigaEvent`, indexed
by the outbound call number; `fresh : Nat → String` scripts the tokens
returned by successive `get_gigachat_token()` OAuth calls (modelled as
always succeeding, as in the claims' scenarios).  JSON parsing of a 200
body into `choices[0].message.content` is elided: the script carries the
content directly, and `text` is `response.text` used in error strings.
The `delay` sleeps are counted, not timed. -/

inductive GigaEvent where
  | resp (status : Nat) (content : String) (text : String)
  | exn (msg : String)
deriving DecidableEq, Repr

/-- Observable outcome of one `generate_gigachat_response` call: the
returned string, the number of outbound completion POSTs, the number of
`get_gigachat_token` OAuth calls, and the number of backoff sleeps. -/
structure GigaTrace where
  result : String
  calls : Nat
  oauthCalls : Nat
  sleeps : Nat
deriving DecidableEq, Repr

/-- Final-attempt message for HTTP 500. -/
def serverErrorMsg : String := "Ошибка: Внутренняя ошибка сервера. Попробуйте позже."

/-- Message returned when the loop exhausts all attempts without a 200. -/
def exhaustedMsg : String :=
  "Ошибка: Не удалось получить ответ от сервера после нескольких попыток."

/-- Message for any status other than 200, 401 and 500: embeds status and
body, no retry. -/
def statusErrorMsg (status : Nat) (text : String) : String :=
  "Ошибка: " ++ toString status ++ " - " ++ text

/-- Final-attempt message for a transport exception. -/
def exnErrorMsg (msg : String) : String := "Ошибка: " ++ msg

/-- The retry loop of `generate_gigachat_response`.  `remaining` is the
number of attempts left (the current one included), `headerTok` the
bearer token of the `Authorization` header, `c`, `o`, `s` the counters of
completion calls, OAuth calls and sleeps so far.  Branch order follows
the source: 200 returns the content; 401 reacquires the token, updates
the header and continues without sleeping; 500 sleeps and retries except
on the final attempt, which returns `serverErrorMsg`; any other status
returns `statusErrorMsg` immediately; an exception sleeps and retries
except on the final attempt, which returns `exnErrorMsg`. -/
def gigaAttempts (script : Nat → GigaEvent) (fresh : Nat → String) :
    Nat → String → Nat → Nat → Nat → GigaTrace
  | 0, _, c, o, s => ⟨exhaustedMsg, c, o, s⟩
  | remaining + 1, tok, c, o, s =>
      match script c with
      | .exn msg =>
          if remaining = 0 then ⟨exnErrorMsg msg, c + 1, o, s⟩
          else gigaAttempts script fresh remaining tok (c + 1) o (s + 1)
      | .resp status content text =>
          if status = 200 then ⟨content, c + 1, o, s⟩
          else if status = 401 then
            gigaAttempts script fresh remaining (fresh o) (c + 1) (o + 1) s
          else if status = 500 then
            if remaining = 0 then ⟨serverErrorMsg, c + 1, o, s⟩
            else gigaAttempts script fresh remaining tok (c + 1) o (s + 1)
          else ⟨statusErrorMsg status text, c + 1, o, s⟩

/-- `generate_gigachat_response`: when the process-wide
`GIGACHAT_AUTH_TOKEN` is `None`, one initial `get_gigachat_token()` call
acquires it before the loop; the headers are built from the token after
that. -/
def generate_gigachat_response (tok0 : Option String) (script : Nat → GigaEvent)
    (fresh : Nat → String) (retries : Nat) : GigaTrace :=
  match tok0 with
  | some t => gigaAttempts script fresh retries t 0 0 0
  | none => gigaAttempts script fresh retries (fresh 0) 0 1 0

/-! ### Conversation session (bot/ai_assistant/ai_handler.py)

`context.user_data` is modelled by `SessionData`; deleting the
`ai_history` key is modelled as emptying the list.  The handlers are
modelled as invoked on the update kind they are registered for
(`start`/`end` on callback queries, `handle_ai_message` on text
messages, so `update.message` is set and `update.callback_query` is
`None` there).  A call concludes with a `HandlerRet`: the returned
`AI_CONSULTATION` or `ConversationHandler.END` sentinel, or an uncaught
exception propagating to the framework.  `handle_ai_message` keeps the
inputs its body names — the message text, the static instruction
(`ai_prompt.get_system_prompt`, not under src/), the profile snapshot
the database holds, and the provider — although past the state guard
the body raises before consuming them (see the doc comment there). -/

structure ConversationTurn where
  role : String
  content : String
deriving DecidableEq, Repr

structure SessionData where
  conversation_active : Bool
  current_state : Option String
  ai_history : List ConversationTurn
  ai_model : Option String
deriving DecidableEq, Repr

/-- A fresh `user_data` with no conversation keys set. -/
def idleSession : SessionData := ⟨false, none, [], none⟩

/-- How a handler call concludes: returning the `AI_CONSULTATION`
sentinel, returning `ConversationHandler.END`, or raising an exception
that propagates to the telegram framework instead of returning. -/
inductive HandlerRet where
  | aiConsultation
  | convEnd
  | raisedError
deriving DecidableEq, Repr

/-- `start_ai_assistant`: sets `conversation_active`, `current_state` and
resets `ai_history` to the empty list.  No system turn is stored. -/
def start_ai_assistant (d : SessionData) : SessionData × HandlerRet :=
  ({ d with
      conversation_active := true
      current_state := some "AI_CONSULTATION"
      ai_history := [] },
   .aiConsultation)

/-- `start_chatgpt_assistant`: records the model choice, then starts. -/
def start_chatgpt_assistant (d : SessionData) : SessionData × HandlerRet :=
  start_ai_assistant { d with ai_model := some "chatgpt" }

/-- `start_gigachat_assistant`: records the model choice, then starts. -/
def start_gigachat_assistant (d : SessionData) : SessionData × HandlerRet :=
  start_ai_assistant { d with ai_model := some "gigachat" }

/-- Outcome of one `handle_ai_message` call: the updated `user_data`,
how the call concluded, and the message list sent to the provider
(`none` when no outbound request was made — both when the state guard
rejected the call and when the body raised before reaching the provider
call). -/
structure HandleOutcome where
  data : SessionData
  ret : HandlerRet
  outbound : Option (List ConversationTurn)
deriving DecidableEq, Repr

/-- `handle_ai_message`: rejects when `current_state` is not
`AI_CONSULTATION` (replying with a warning and returning `END`, the
`user_data` untouched).

Past the guard the body never completes.  Traced statement by
statement: line 138 binds `settings` to the result of
`get_user_settings(user_id)` WITHOUT `await` — `get_user_settings` is an
`async def`, so `settings` is a coroutine object, never a dict.  A
coroutine object is truthy, so line 140 enters the profile block, and
line 142 evaluates `settings.items()`, which raises `AttributeError` —
before the user turn is appended at line 150, before the system prompt
is built at line 147, and before any provider call (line 161 would bind
another unawaited coroutine in any case).  The `except` at line 237
catches it, but line 239 evaluates `update.callback_query.message`, and
`update.callback_query` is `None` for the text-message updates this
handler receives, raising a second `AttributeError` that propagates out
of the handler; the `conversation_active = False` reset at line 245 is
never reached.  Net observable effect: the call raises, `user_data`
(the turn history included) is unchanged, and no outbound provider
request is made.  The `sysInstr`, `profileStr` and `provider` arguments
type the data the body names but never consumes. -/
def handle_ai_message (d : SessionData) (userMsg : String)
    (sysInstr : String) (profileStr : String)
    (provider : List ConversationTurn → String) : HandleOutcome :=
  if d.current_state ≠ some "AI_CONSULTATION" then
    ⟨d, .convEnd, none⟩
  else
    ⟨d, .raisedError, none⟩

/-- `end_ai_consultation`: clears `conversation_active`, deletes
`ai_history` and `ai_model`.  (`current_state` is not touched by the
source.) -/
def end_ai_consultation (d : SessionData) : SessionData × HandlerRet :=
  ({ d with
      conversation_active := false
      ai_history := []
      ai_model := none },
   .convEnd)

/-! ### Message chunker (ai_handler.py lines 194-234)

The inline splitting block of `handle_ai_message`, extracted over
`List Char` (one element per Python character).  `MAX_MESSAGE_LENGTH` is
4096 in the source; the limit is kept as a parameter `L`.  With `L = 0`
the Python loop does not terminate, so the Lean embedding carries the
hypothesis `1 ≤ L`. -/

def MAX_MESSAGE_LENGTH : Nat := 4096

/-- The boundary characters of the backward scan:
`response[end - 1] not in [' ', '\n', '.']`. -/
def isBreakChar (c : Char) : Bool := c == ' ' || c == '\n' || c == '.'

/-- The separator characters skipped between parts:
`response[start] in [' ', '\n']`. -/
def isSkipChar (c : Char) : Bool := c == ' ' || c == '\n'

/-- Python `str.isspace` on the characters stripped by `part.strip()`
(ASCII whitespace; the wider Unicode classes are not produced by the
chunker itself). -/
def pyIsSpace (c : Char) : Bool :=
  c == ' ' || c == '\t' || c == '\n' || c == '\r' || c == '\x0b' || c == '\x0c'

/-- The backward scan `while end > start and response[end-1] not in
[' ', '\n', '.']: end -= 1`, expressed on the offset `k = end - start`:
`backoffOff t start k` is the offset at which the scan started from
`start + k` stops (0 when it reaches `start`). -/
def backoffOff (t : List Char) (start : Nat) : Nat → Nat
  | 0 => 0
  | k + 1 => if isBreakChar (t.getD (start + k) ' ') then k + 1 else backoffOff t start k

/-- Length of the maximal leading run of skip characters: models
`while start < len(response) and response[start] in [' ', '\n']:
start += 1` applied to the suffix. -/
def skipRun : List Char → Nat
  | [] => 0
  | c :: cs => if isSkipChar c then 1 + skipRun cs else 0

/-- End index of the part beginning at `start`: `end = min(start + L,
len)`; when that is not the end of the text, back off to the last break
character, and if none was found hard-split at `start + L`. -/
def chunkEnd (t : List Char) (L start : Nat) : Nat :=
  if min (start + L) t.length < t.length then
    if backoffOff t start (min (start + L) t.length - start) = 0 then start + L
    else start + backoffOff t start (min (start + L) t.length - start)
  else min (start + L) t.length

/-- The chunking loop: emit the part `response[start:end]` when it has a
non-whitespace character (`part.strip()`), then continue after the
skipped separator run. -/
def chunkLoop (t : List Char) (L : Nat) (hL : 1 ≤ L) (start : Nat) :
    List (List Char) :=
  if h : start < t.length then
    if ((t.drop start).take (chunkEnd t L start - start)).any (fun c => ! pyIsSpace c) then
      (t.drop start).take (chunkEnd t L start - start) ::
        chunkLoop t L hL (chunkEnd t L start + skipRun (t.drop (chunkEnd t L start)))
    else
      chunkLoop t L hL (chunkEnd t L start + skipRun (t.drop (chunkEnd t L start)))
  else []
termination_by t.length - start
decreasing_by
  all_goals
    simp only [chunkEnd]
    split
    · split
      · omega
      · have hb : backoffOff t start (min (start + L) t.length - start) ≠ 0 := by
          assumption
        omega
    · have he0 : ¬ min (start + L) t.length < t.length := by assumption
      omega

/-- The whole delivery block: a text within the limit is sent as a single
message; a longer one goes through the chunking loop. -/
def chunkMessage (t : List Char) (L : Nat) (hL : 1 ≤ L) : List (List Char) :=
  if t.length ≤ L then [t] else chunkLoop t L hL 0

/-- `WsJoin t segs`: `t` is reproducible from the segments `segs` by
restoring a (possibly empty) run of whitespace before each segment and
after the last one — the round-trip contract of the chunker. -/
inductive WsJoin : List Char → List (List Char) → Prop
  | nil (w : List Char) (hw : ∀ c ∈ w, pyIsSpace c) : WsJoin w []
  | cons (w seg rest : List Char) (segs : List (List Char))
      (hw : ∀ c ∈ w, pyIsSpace c) (h : WsJoin rest segs) :
      WsJoin (w ++ (seg ++ rest)) (seg :: segs)

/-! ## Theorems -/

/-- Claim C9 (counterexample): the round-trip fails for the empty string,
because `encrypt_token("")` is already `None` and decrypting `None` gives
`None`, not `""`. -/
theorem C9_empty_roundtrip_counterexample :
    decrypt_token demoFernet (encrypt_token demoFernet (some "")) = none
    ∧ (none : Option String) ≠ some "" :=
  ⟨rfl, by decide⟩

/-- Claim C9 (amended): for every non-empty string `s`,
`decrypt_token (encrypt_token s) = s`, and `encrypt_token` applied to
`None` or the empty string returns `None`. -/
theorem C9_token_roundtrip_amended (F : FernetModel) :
    (∀ s : String, s ≠ "" → decrypt_token F (encrypt_token F (some s)) = some s)
    ∧ encrypt_token F none = none
    ∧ encrypt_token F (some "") = none := by
  refine ⟨?_, rfl, by simp [encrypt_token]⟩
  intro s hs
  simp [encrypt_token, hs, decrypt_token, F.encrypt_ne_empty s, F.decrypt_encrypt s]

/-- Witness for C9 at the concrete cipher and `s = "abc"`. -/
theorem C9_token_roundtrip_witness :
    decrypt_token demoFernet (encrypt_token demoFernet (some "abc")) = some "abc" :=
  (C9_token_roundtrip_amended demoFernet).1 "abc" (by decide)

/-- Claim C1 (counterexample): a successful refresh whose body carries a
new refresh token `NEWR` still stores the OLD refresh ciphertext `Er`
unchanged — the response's `refresh_token` field is never consulted, even
when present. -/
theorem C1_refresh_carry_counterexample :
    (get_valid_access_token demoFernet 0
        (fun _ => .response 200 ⟨some "NEWA", some "NEWR", some 60⟩)
        ⟨some "Ea", some "Er", some 100⟩).2.refresh_token_encrypted = some "Er"
    ∧ some "Er" ≠ some "NEWR"
    ∧ some "Er" ≠ some (demoFernet.encrypt "NEWR") :=
  ⟨rfl, by decide, by decide⟩

/-- Claim C1 (amended): for a record with an access-token ciphertext, an
expiry within 300 seconds of now and a decryptable refresh token, a 200
refresh response with an access token and a lifetime makes
`get_valid_access_token` persist the encrypted new access token, the OLD
refresh ciphertext carried forward unchanged (regardless of any refresh
token in the response), and `expires_at = now + lifetime`, returning the
new access token. -/
theorem C1_refresh_success_amended
    (F : FernetModel) (now : Int) (api : String → RefreshResult)
    (aEnc rEnc newA r : String) (expAt lifetime : Int) (body : RefreshBody)
    (haEnc : aEnc ≠ "") (hrEnc : rEnc ≠ "")
    (hnear : now > expAt - 300)
    (hdec : F.decrypt rEnc = some r) (hr : r ≠ "")
    (hapi : api r = .response 200 body)
    (hacc : body.access_token = some newA) (hA : newA ≠ "")
    (hlife : body.expires_in = some lifetime) :
    get_valid_access_token F now api ⟨some aEnc, some rEnc, some expAt⟩ =
      (.ok (some newA),
       ⟨some (F.encrypt newA), some rEnc, some (now + lifetime)⟩) := by
  simp [get_valid_access_token, tokenPhase1, get_api_tokens, pyTruthy, haEnc, hrEnc,
        hnear, decrypt_token, hdec, hr, hapi, tokenPhase2, hacc, hA, hlife,
        save_api_tokens, encrypt_token]

/-- Witness for C1 on a concrete near-expiry record and response. -/
theorem C1_refresh_success_witness :
    get_valid_access_token demoFernet 0
        (fun _ => .response 200 ⟨some "NEWA", some "NEWR", some 60⟩)
        ⟨some "Ea", some "Er", some 100⟩ =
      (.ok (some "NEWA"),
       ⟨some (demoFernet.encrypt "NEWA"), some "Er", some (0 + 60)⟩) :=
  C1_refresh_success_amended demoFernet 0 _ "Ea" "Er" "NEWA" "r" 100 60
    ⟨some "NEWA", some "NEWR", some 60⟩ (by decide) (by decide) (by norm_num)
    rfl (by decide) rfl rfl (by decide) rfl

/-- Claim C2 (counterexample): on the refresh path a transport exception
during the remote call propagates to the caller — the record is NOT
cleared and the function raises instead of returning absent. -/
theorem C2_transport_counterexample :
    get_valid_access_token demoFernet 0 (fun _ => .exn)
        ⟨some "Ea", some "Er", some 100⟩ =
      (.raised, ⟨some "Ea", some "Er", some 100⟩)
    ∧ (⟨some "Ea", some "Er", some 100⟩ : TokenRow) ≠ clearedRow :=
  ⟨rfl, by decide⟩

/-- Claim C2 (amended): on the refresh path a non-success response and a
failure to decrypt the stored refresh token both clear the record and
return absent; a transport exception during the remote call, however,
propagates to the caller and leaves the record unchanged. -/
theorem C2_fail_closed_amended (F : FernetModel) (now : Int)
    (aEnc rEnc : String) (expAt : Int)
    (haEnc : aEnc ≠ "") (hrEnc : rEnc ≠ "") (hnear : now > expAt - 300) :
    (∀ (api : String → RefreshResult) (r : String) (status : Nat) (body : RefreshBody),
        F.decrypt rEnc = some r → r ≠ "" →
        api r = .response status body → status ≠ 200 →
        get_valid_access_token F now api ⟨some aEnc, some rEnc, some expAt⟩ =
          (.ok none, clearedRow))
    ∧ (∀ api : String → RefreshResult,
        pyTruthy (decrypt_token F (some rEnc)) = false →
        get_valid_access_token F now api ⟨some aEnc, some rEnc, some expAt⟩ =
          (.ok none, clearedRow))
    ∧ (∀ (api : String → RefreshResult) (r : String),
        F.decrypt rEnc = some r → r ≠ "" → api r = .exn →
        get_valid_access_token F now api ⟨some aEnc, some rEnc, some expAt⟩ =
          (.raised, ⟨some aEnc, some rEnc, some expAt⟩)) := by
  refine ⟨?_, ?_, ?_⟩
  · intro api r status body hdec hr hapi hstatus
    simp [get_valid_access_token, tokenPhase1, get_api_tokens, pyTruthy, haEnc, hrEnc,
          hnear, decrypt_token, hdec, hr, hapi, tokenPhase2, hstatus]
  · intro api hfail
    rcases hd : F.decrypt rEnc with _ | r
    · simp [get_valid_access_token, tokenPhase1, get_api_tokens, pyTruthy, haEnc,
            hrEnc, hnear, decrypt_token, hd]
    · have hr : r = "" := by
        simp [decrypt_token, hrEnc, hd, pyTruthy] at hfail
        exact hfail
      simp [get_valid_access_token, tokenPhase1, get_api_tokens, pyTruthy, haEnc,
            hrEnc, hnear, decrypt_token, hd, hr]
  · intro api r hdec hr hapi
    simp [get_valid_access_token, tokenPhase1, get_api_tokens, pyTruthy, haEnc, hrEnc,
          hnear, decrypt_token, hdec, hr, hapi, tokenPhase2]

/-- Witness for C2: a 400 response on a concrete near-expiry record
clears it and returns absent. -/
theorem C2_fail_closed_witness :
    get_valid_access_token demoFernet 0 (fun _ => .response 400 ⟨none, none, none⟩)
        ⟨some "Ea", some "Er", some 100⟩ = (.ok none, clearedRow) :=
  (C2_fail_closed_amended demoFernet 0 "Ea" "Er" 100 (by decide) (by decide)
      (by norm_num)).1 _ "r" 400 ⟨none, none, none⟩ rfl (by decide) rfl (by decide)

/-- Claim C3: `get_valid_access_token` has no single-flight guard.  Under
the cooperative schedule in which the second caller runs while the first
awaits the refresh response, any state that sends the first caller into a
refresh sends the second caller into its own: two outbound refresh calls
are issued, not one. -/
theorem C3_double_refresh (F : FernetModel) (now : Int) (row : TokenRow)
    (h : isRefreshing (tokenPhase1 F now row) = true) :
    twoCallRefreshCount F now row = 2 := by
  cases hp : tokenPhase1 F now row with
  | done res row1 =>
      rw [hp] at h
      simp [isRefreshing] at h
  | refreshing r renc =>
      unfold twoCallRefreshCount
      rw [hp]
      rfl

/-- Witness for C3 on a concrete near-expiry record with a decryptable
refresh token. -/
theorem C3_double_refresh_witness :
    twoCallRefreshCount demoFernet 0 ⟨some "Ea", some "Er", some 100⟩ = 2 :=
  C3_double_refresh demoFernet 0 ⟨some "Ea", some "Er", some 100⟩ (by decide)

/-- Claim C10: when the 200 refresh body lacks `expires_in`, the record
is persisted with the default lifetime of 3600 seconds:
`expires_at = now + 3600`. -/
theorem C10_default_lifetime
    (F : FernetModel) (now : Int) (api : String → RefreshResult)
    (aEnc rEnc newA r : String) (expAt : Int) (body : RefreshBody)
    (haEnc : aEnc ≠ "") (hrEnc : rEnc ≠ "")
    (hnear : now > expAt - 300)
    (hdec : F.decrypt rEnc = some r) (hr : r ≠ "")
    (hapi : api r = .response 200 body)
    (hacc : body.access_token = some newA) (hA : newA ≠ "")
    (hlife : body.expires_in = none) :
    get_valid_access_token F now api ⟨some aEnc, some rEnc, some expAt⟩ =
      (.ok (some newA),
       ⟨some (F.encrypt newA), some rEnc, some (now + 3600)⟩) := by
  simp [get_valid_access_token, tokenPhase1, get_api_tokens, pyTruthy, haEnc, hrEnc,
        hnear, decrypt_token, hdec, hr, hapi, tokenPhase2, hacc, hA, hlife,
        save_api_tokens, encrypt_token]

/-- Witness for C10 on a concrete record and a body without
`expires_in`. -/
theorem C10_default_lifetime_witness :
    get_valid_access_token demoFernet 0
        (fun _ => .response 200 ⟨some "NEWA", none, none⟩)
        ⟨some "Ea", some "Er", some 100⟩ =
      (.ok (some "NEWA"),
       ⟨some (demoFernet.encrypt "NEWA"), some "Er", some (0 + 3600)⟩) :=
  C10_default_lifetime demoFernet 0 _ "Ea" "Er" "NEWA" "r" 100
    ⟨some "NEWA", none, none⟩ (by decide) (by decide) (by norm_num)
    rfl (by decide) rfl rfl (by decide) rfl

/-- Claim C4 (counterexample): a 502 response — a 5xx status — on the
first of three attempts is NOT retried: the gateway makes exactly one
call, sleeps zero times, and returns the embedded-status message rather
than retrying or returning the server-error message. -/
theorem C4_status502_counterexample :
    generate_gigachat_response (some "T0")
        (fun _ => .resp 502 "" "Bad Gateway") (fun _ => "F") 3 =
      ⟨statusErrorMsg 502 "Bad Gateway", 1, 0, 0⟩
    ∧ 500 ≤ 502 ∧ 502 < 600
    ∧ statusErrorMsg 502 "Bad Gateway" ≠ serverErrorMsg := by
  refine ⟨rfl, by norm_num, by norm_num, by decide⟩

/-- Claim C4 (amended): the retry applies to status 500 exactly (any
other 5xx status returns the embedded-status message immediately): on a
non-final attempt a 500 sleeps `delay` and retries, on the final attempt
it returns the user-facing server-error message; with a backend returning
500 on the first two attempts and 200 on the third and `retries = 3`, the
gateway returns the 200 payload after exactly 3 outbound calls. -/
theorem C4_retry500_amended :
    (∀ (script : Nat → GigaEvent) (fresh : Nat → String)
        (rem : Nat) (tok : String) (c o s : Nat) (content text : String),
        script c = .resp 500 content text → rem ≠ 0 →
        gigaAttempts script fresh (rem + 1) tok c o s =
          gigaAttempts script fresh rem tok (c + 1) o (s + 1))
    ∧ (∀ (script : Nat → GigaEvent) (fresh : Nat → String)
        (tok : String) (c o s : Nat) (content text : String),
        script c = .resp 500 content text →
        gigaAttempts script fresh 1 tok c o s = ⟨serverErrorMsg, c + 1, o, s⟩)
    ∧ generate_gigachat_response (some "T0")
        (fun n => if n < 2 then .resp 500 "" "ise" else .resp 200 "PAYLOAD" "")
        (fun _ => "F") 3 = ⟨"PAYLOAD", 3, 0, 2⟩ := by
  refine ⟨?_, ?_, rfl⟩
  · intro script fresh rem tok c o s content text hev hrem
    simp [gigaAttempts, hev, hrem]
  · intro script fresh tok c o s content text hev
    simp [gigaAttempts, hev]

/-- Witness for C4: one step of the 500 branch on a concrete script. -/
theorem C4_retry500_witness :
    gigaAttempts (fun _ => .resp 500 "a" "b") (fun _ => "F") 2 "T" 0 0 0 =
      gigaAttempts (fun _ => .resp 500 "a" "b") (fun _ => "F") 1 "T" 1 0 1 :=
  C4_retry500_amended.1 (fun _ => .resp 500 "a" "b") (fun _ => "F") 1 "T" 0 0 0
    "a" "b" rfl (by decide)

/-- Claim C5: on a 401 the gateway reacquires the process-wide
credential, updates the Authorization header to the fresh token, and
continues the loop without a backoff sleep, the 401 consuming one
attempt; with a stub returning 401 once then 200, it reacquires exactly
once and returns the 200 payload with zero sleeps. -/
theorem C5_unauthorized_retry :
    (∀ (script : Nat → GigaEvent) (fresh : Nat → String)
        (rem : Nat) (tok : String) (c o s : Nat) (content text : String),
        script c = .resp 401 content text →
        gigaAttempts script fresh (rem + 1) tok c o s =
          gigaAttempts script fresh rem (fresh o) (c + 1) (o + 1) s)
    ∧ generate_gigachat_response (some "T0")
        (fun n => if n = 0 then .resp 401 "" "unauthorized" else .resp 200 "PAYLOAD" "")
        (fun _ => "FRESH") 3 = ⟨"PAYLOAD", 2, 1, 0⟩ := by
  refine ⟨?_, rfl⟩
  intro script fresh rem tok c o s content text hev
  simp [gigaAttempts, hev]

/-- Witness for C5: one step of the 401 branch on a concrete script. -/
theorem C5_unauthorized_retry_witness :
    gigaAttempts (fun _ => .resp 401 "a" "b") (fun _ => "FRESH") 3 "T" 0 0 0 =
      gigaAttempts (fun _ => .resp 401 "a" "b") (fun _ => "FRESH") 2 "FRESH" 1 1 0 :=
  C5_unauthorized_retry.1 (fun _ => .resp 401 "a" "b") (fun _ => "FRESH") 2 "T" 0 0 0
    "a" "b" rfl

/-- Claim C6 (counterexample): after `start` (ChatGPT provider) and one
`message` in the active state, the handler has raised before storing
anything: the history holds 0 turns, not the 3 the claim requires, and
no provider request was ever issued. -/
theorem C6_turns_counterexample :
    (handle_ai_message (start_chatgpt_assistant idleSession).1 "hello" "SYS" "PROFILE"
        (fun _ => "hi there")).ret = .raisedError
    ∧ (handle_ai_message (start_chatgpt_assistant idleSession).1 "hello" "SYS" "PROFILE"
        (fun _ => "hi there")).data.ai_history.length = 0
    ∧ (handle_ai_message (start_chatgpt_assistant idleSession).1 "hello" "SYS" "PROFILE"
        (fun _ => "hi there")).outbound = none
    ∧ (0 : Nat) ≠ 3 :=
  ⟨rfl, rfl, rfl, by decide⟩

/-- Claim C6 (amended): `start` clears the turn history and seeds NO
system turn, leaving the session active; `message` invoked while active
raises an `AttributeError` before storing any turn or issuing any
provider request (the async profile fetch is bound without `await`, so
`settings.items()` raises, and the handler's `except` block raises again
on `update.callback_query.message` for a text update), leaving the
session data — the history included — unchanged; `end` clears the
active flag and empties the history. -/
theorem C6_session_flow_amended :
    ((start_chatgpt_assistant idleSession).1.ai_history = []
      ∧ (start_chatgpt_assistant idleSession).1.conversation_active = true
      ∧ (start_chatgpt_assistant idleSession).1.current_state = some "AI_CONSULTATION")
    ∧ (∀ (d : SessionData) (userMsg sysInstr profileStr : String)
        (provider : List ConversationTurn → String),
        d.current_state = some "AI_CONSULTATION" →
        handle_ai_message d userMsg sysInstr profileStr provider =
          ⟨d, .raisedError, none⟩)
    ∧ (∀ d : SessionData,
        (end_ai_consultation d).1.conversation_active = false
        ∧ (end_ai_consultation d).1.ai_history = []) := by
  refine ⟨⟨rfl, rfl, rfl⟩, ?_, fun d => ⟨rfl, rfl⟩⟩
  intro d userMsg sysInstr profileStr provider hd
  rw [handle_ai_message, if_neg (not_not_intro hd)]

/-- Witness for C6: the message step on a concrete active session raises
with the session data unchanged and no outbound request. -/
theorem C6_session_flow_witness :
    handle_ai_message (start_chatgpt_assistant idleSession).1 "hello" "SYS" "P1"
        (fun _ => "hi there") =
      ⟨(start_chatgpt_assistant idleSession).1, .raisedError, none⟩ :=
  C6_session_flow_amended.2.1 (start_chatgpt_assistant idleSession).1 "hello" "SYS"
    "P1" (fun _ => "hi there") rfl

/-- Claim C7: whenever `current_state` is not the active consultation
state, `handle_ai_message` rejects the call (returning the END sentinel
with no outbound provider request) and leaves the session data — in
particular the turn history — completely untouched. -/
theorem C7_invalid_state_guard (d : SessionData) (userMsg sysInstr profileStr : String)
    (provider : List ConversationTurn → String)
    (h : d.current_state ≠ some "AI_CONSULTATION") :
    handle_ai_message d userMsg sysInstr profileStr provider = ⟨d, .convEnd, none⟩ := by
  rw [handle_ai_message, if_pos h]

/-- Witness for C7 on an idle session. -/
theorem C7_invalid_state_guard_witness :
    handle_ai_message idleSession "m" "s" "p" (fun _ => "x") =
      ⟨idleSession, .convEnd, none⟩ :=
  C7_invalid_state_guard idleSession "m" "s" "p" (fun _ => "x") (by decide)

/-! Helper lemmas for the chunker. -/

theorem backoffOff_le (t : List Char) (start : Nat) :
    ∀ k, backoffOff t start k ≤ k := by
  intro k
  induction k with
  | zero => simp [backoffOff]
  | succ k ih =>
      rw [backoffOff]
      split
      · exact le_refl _
      · exact le_trans ih (by omega)

theorem chunkEnd_le_add (t : List Char) (L start : Nat) :
    chunkEnd t L start ≤ start + L := by
  rw [chunkEnd]
  split
  · split
    · exact le_refl _
    · have := backoffOff_le t start (min (start + L) t.length - start)
      omega
  · omega

theorem chunkEnd_gt (t : List Char) (L start : Nat)
    (h : start < t.length) (hL : 1 ≤ L) : start < chunkEnd t L start := by
  rw [chunkEnd]
  split
  · split
    · omega
    · have hb : backoffOff t start (min (start + L) t.length - start) ≠ 0 := by
        assumption
      omega
  · omega

theorem skip_isSpace (c : Char) (h : isSkipChar c = true) : pyIsSpace c = true := by
  simp only [isSkipChar, Bool.or_eq_true, beq_iff_eq] at h
  rcases h with h | h <;> simp [pyIsSpace, h]

theorem skipRun_all (l : List Char) :
    ∀ c ∈ l.take (skipRun l), pyIsSpace c = true := by
  induction l with
  | nil => simp [skipRun]
  | cons a as ih =>
      rw [skipRun]
      split
      · intro c hc
        rw [show 1 + skipRun as = skipRun as + 1 by omega, List.take_succ_cons] at hc
        rcases List.mem_cons.mp hc with hc | hc
        · subst hc
          exact skip_isSpace _ (by assumption)
        · exact ih c hc
      · simp

theorem drop_take_drop (t : List Char) (a b : Nat) (hab : a ≤ b) :
    (t.drop a).take (b - a) ++ t.drop b = t.drop a := by
  conv_rhs => rw [← List.take_append_drop (b - a) (t.drop a)]
  congr 1
  rw [List.drop_drop]
  congr 1
  omega

theorem wsJoin_prepend (w x : List Char) (segs : List (List Char))
    (hw : ∀ c ∈ w, pyIsSpace c = true) (h : WsJoin x segs) :
    WsJoin (w ++ x) segs := by
  cases h with
  | nil hw2 =>
      rename_i hw2
      refine WsJoin.nil _ ?_
      intro c hc
      rcases List.mem_append.mp hc with hc | hc
      · exact hw c hc
      · exact hw2 c hc
  | cons w2 seg rest segs2 hw2 h2 =>
      rw [← List.append_assoc]
      refine WsJoin.cons (w ++ w2) seg rest segs2 ?_ h2
      intro c hc
      rcases List.mem_append.mp hc with hc | hc
      · exact hw c hc
      · exact hw2 c hc

theorem chunkLoop_length_le (t : List Char) (L : Nat) (hL : 1 ≤ L) :
    ∀ n start, t.length - start ≤ n →
      ∀ seg ∈ chunkLoop t L hL start, seg.length ≤ L := by
  intro n
  induction n with
  | zero =>
      intro start hn seg hseg
      rw [chunkLoop, dif_neg (by omega)] at hseg
      simp at hseg
  | succ n ih =>
      intro start hn seg hseg
      by_cases h : start < t.length
      · have hgt : start < chunkEnd t L start := chunkEnd_gt t L start h hL
        have hlen : ((t.drop start).take (chunkEnd t L start - start)).length ≤ L := by
          have := chunkEnd_le_add t L start
          simp only [List.length_take, List.length_drop]
          omega
        have hrec := ih (chunkEnd t L start + skipRun (t.drop (chunkEnd t L start)))
          (by omega)
        rw [chunkLoop, dif_pos h] at hseg
        split at hseg
        · rcases List.mem_cons.mp hseg with hseg | hseg
          · subst hseg; exact hlen
          · exact hrec seg hseg
        · exact hrec seg hseg
      · rw [chunkLoop, dif_neg h] at hseg
        simp at hseg

theorem chunkLoop_wsJoin (t : List Char) (L : Nat) (hL : 1 ≤ L) :
    ∀ n start, t.length - start ≤ n →
      WsJoin (t.drop start) (chunkLoop t L hL start) := by
  intro n
  induction n with
  | zero =>
      intro start hn
      rw [chunkLoop, dif_neg (by omega), List.drop_eq_nil_of_le (by omega)]
      exact WsJoin.nil [] (by simp)
  | succ n ih =>
      intro start hn
      by_cases h : start < t.length
      · have hgt : start < chunkEnd t L start := chunkEnd_gt t L start h hL
        rw [chunkLoop, dif_pos h]
        have hd1 : t.drop start =
            (t.drop start).take (chunkEnd t L start - start) ++
              t.drop (chunkEnd t L start) :=
          (drop_take_drop t start (chunkEnd t L start) (by omega)).symm
        have hd2 : t.drop (chunkEnd t L start) =
            (t.drop (chunkEnd t L start)).take (skipRun (t.drop (chunkEnd t L start))) ++
              t.drop (chunkEnd t L start + skipRun (t.drop (chunkEnd t L start))) := by
          have := drop_take_drop t (chunkEnd t L start)
            (chunkEnd t L start + skipRun (t.drop (chunkEnd t L start))) (by omega)
          rw [Nat.add_sub_cancel_left] at this
          exact this.symm
        have hrec := ih (chunkEnd t L start + skipRun (t.drop (chunkEnd t L start)))
          (by omega)
        have hmid : WsJoin (t.drop (chunkEnd t L start))
            (chunkLoop t L hL
              (chunkEnd t L start + skipRun (t.drop (chunkEnd t L start)))) := by
          have hjoin := wsJoin_prepend
            ((t.drop (chunkEnd t L start)).take (skipRun (t.drop (chunkEnd t L start))))
            (t.drop (chunkEnd t L start + skipRun (t.drop (chunkEnd t L start))))
            (chunkLoop t L hL
              (chunkEnd t L start + skipRun (t.drop (chunkEnd t L start))))
            (skipRun_all _) hrec
          rw [← hd2] at hjoin
          exact hjoin
        split
        · have key : WsJoin
              ((t.drop start).take (chunkEnd t L start - start) ++
                t.drop (chunkEnd t L start))
              ((t.drop start).take (chunkEnd t L start - start) ::
                chunkLoop t L hL
                  (chunkEnd t L start + skipRun (t.drop (chunkEnd t L start)))) := by
            have hc := WsJoin.cons []
              ((t.drop start).take (chunkEnd t L start - start))
              (t.drop (chunkEnd t L start))
              (chunkLoop t L hL
                (chunkEnd t L start + skipRun (t.drop (chunkEnd t L start))))
              (by simp) hmid
            rw [List.nil_append] at hc
            exact hc
          rw [← hd1] at key
          exact key
        · have hany : ¬ ((t.drop start).take (chunkEnd t L start - start)).any
              (fun c => ! pyIsSpace c) = true := by assumption
          have hall : ∀ c ∈ (t.drop start).take (chunkEnd t L start - start),
              pyIsSpace c = true := by
            intro c hc
            cases hps : pyIsSpace c with
            | true => rfl
            | false => exact absurd (List.any_eq_true.mpr ⟨c, hc, by simp [hps]⟩) hany
          have key : WsJoin
              ((t.drop start).take (chunkEnd t L start - start) ++
                t.drop (chunkEnd t L start))
              (chunkLoop t L hL
                (chunkEnd t L start + skipRun (t.drop (chunkEnd t L start)))) :=
            wsJoin_prepend _ _ _ hall hmid
          rw [← hd1] at key
          exact key
      · rw [chunkLoop, dif_neg h, List.drop_eq_nil_of_le (by omega)]
        exact WsJoin.nil [] (by simp)

/-- Claim C8 (counterexample): for empty text the delivery block sends
one empty segment, not an empty sequence. -/
theorem C8_empty_text_counterexample :
    chunkMessage [] 5 (by norm_num) = [[]]
    ∧ ([[]] : List (List Char)) ≠ [] :=
  ⟨rfl, by decide⟩

/-- Claim C8 (amended): for every text `t` and limit `L ≥ 1`, every
segment has length `≤ L`; `t` is reproduced by concatenating the segments
with the removed whitespace runs restored between them (`WsJoin`); the
operation is total; and a text no longer than `L` — the empty text
included — yields that text as a single segment. -/
theorem C8_chunk_contract_amended (t : List Char) (L : Nat) (hL : 1 ≤ L) :
    (∀ seg ∈ chunkMessage t L hL, seg.length ≤ L)
    ∧ WsJoin t (chunkMessage t L hL)
    ∧ (t.length ≤ L → chunkMessage t L hL = [t]) := by
  refine ⟨?_, ?_, ?_⟩
  · intro seg hseg
    rw [chunkMessage] at hseg
    split at hseg
    · rcases List.mem_singleton.mp hseg with rfl
      omega
    · exact chunkLoop_length_le t L hL t.length 0 (by omega) seg hseg
  · rw [chunkMessage]
    split
    · have := WsJoin.cons [] t [] [] (by simp) (WsJoin.nil [] (by simp))
      simpa using this
    · have := chunkLoop_wsJoin t L hL t.length 0 (by omega)
      simpa using this
  · intro hle
    rw [chunkMessage, if_pos hle]

/-- Witness for C8 on a concrete text and limit. -/
theorem C8_chunk_contract_witness :
    (∀ seg ∈ chunkMessage ['a', 'b', ' ', 'c', 'd'] 2 (by norm_num), seg.length ≤ 2)
    ∧ WsJoin ['a', 'b', ' ', 'c', 'd']
        (chunkMessage ['a', 'b', ' ', 'c', 'd'] 2 (by norm_num))
    ∧ (['a', 'b', ' ', 'c', 'd'].length ≤ 2 →
        chunkMessage ['a', 'b', ' ', 'c', 'd'] 2 (by norm_num) =
          [['a', 'b', ' ', 'c', 'd']]) :=
  C8_chunk_contract_amended ['a', 'b', ' ', 'c', 'd'] 2 (by norm_num)

end WorkoutBot
